import Mathlib

/-!
# Verification of `aemetapi.py` (AEMET Antarctica weather client)

Shallow embedding of `src/aemetapi.py` (class `AEMETApi`) and proofs about it.

Modelling conventions:
* Timestamps (`datetime` values obtained by `datetime.strptime(s, "%Y-%m-%dT%H:%M:%S")`)
  are modelled by the `DateTime` structure of six natural-number components.
  Python compares `datetime` objects lexicographically by component, and `sorted`
  with a string key compares the canonical zero-padded `YYYY-MM-DDTHH:MM:SS`
  rendering, which is the same lexicographic component order; both are modelled by
  the lexicographic order on the component list.  Parsing a record's `fhora`
  string is the identity in this model (the field already holds the `DateTime`).
* Numeric measurement values (`temp`, `pres`, `vel`) are modelled by `ℚ`.
* `pytz`/`astimezone` timezone conversion is an external library call; it is
  modelled by an arbitrary function `tz : DateTime → DateTime` (the configured
  `self.local_timezone` conversion), passed as a parameter.
* Network I/O (`requests.get`) is modelled by a `Network` oracle giving the
  metadata response for an endpoint and the parsed JSON array for a `datos`
  URL.  `get_antarctica_data` additionally returns the number of network
  requests it performed, so "before any network I/O" is expressible.
* Python dictionaries returned to the caller are modelled by the `Envelope`
  structure; a key that a branch does not set is an `Option` field left `none`.
  This keeps the source's `"data"` vs `"dataset"` key discrepancy observable.
* The `time_aggregation` argument is any Python value; the values that matter
  are `None` and strings, modelled by `Option String` (`none` = Python `None`).
  Python truthiness of such a value is `pyTruthy`.
-/

/-- A parsed timestamp: the six components of `YYYY-MM-DDTHH:MM:SS`. -/
structure DateTime where
  year : Nat
  month : Nat
  day : Nat
  hour : Nat
  minute : Nat
  second : Nat
deriving DecidableEq, Repr

/-- Component list, most significant first; Python `datetime` comparison and
string comparison of the canonical rendering are lexicographic on this list. -/
def DateTime.toList (d : DateTime) : List Nat :=
  [d.year, d.month, d.day, d.hour, d.minute, d.second]

/-- Chronological order on timestamps, pulled back from the lexicographic order
on the component list. -/
instance : LinearOrder DateTime :=
  LinearOrder.lift' DateTime.toList (by
    intro a b h
    cases a; cases b
    simp [DateTime.toList] at h
    obtain ⟨h1, h2, h3, h4, h5, h6⟩ := h
    subst h1; subst h2; subst h3; subst h4; subst h5; subst h6
    rfl)

/-- One raw observation object from the upstream JSON array
(fields `fhora`, `nombre`, `temp`, `pres`, `vel`). -/
structure RawRecord where
  nombre : String
  fhora : DateTime
  temp : ℚ
  pres : ℚ
  vel : ℚ
deriving DecidableEq, Repr

/-- One aggregated bucket dict produced by `aggregate_data`
(keys `station`, `utc_datetime`, `datetime`, `temperature`, `pressure`, `speed`). -/
structure AggRecord where
  station : String
  utc_datetime : DateTime
  datetime : DateTime
  temperature : ℚ
  pressure : ℚ
  speed : ℚ
deriving DecidableEq, Repr

/-- A record handed to `sort_data`: either a raw upstream dict (has key
`fhora`) or an already-aggregated dict (has key `utc_datetime` instead). -/
inductive DataRecord
  | raw (r : RawRecord)
  | agg (a : AggRecord)
deriving DecidableEq, Repr

/-- The effective sort key of `sort_data`:
`x['fhora'] if 'fhora' in x else x['utc_datetime']`. -/
def sortKey : DataRecord → DateTime
  | .raw r => r.fhora
  | .agg a => a.utc_datetime

/-- Comparison of `sort_data` records by their effective key. -/
def recLe (x y : DataRecord) : Prop := sortKey x ≤ sortKey y

instance : DecidableRel recLe := fun _ _ => inferInstanceAs (Decidable (_ ≤ _))

instance : IsTotal DataRecord recLe := ⟨fun a b => le_total (sortKey a) (sortKey b)⟩

instance : IsTrans DataRecord recLe := ⟨fun _ _ _ h h' => le_trans h h'⟩

/-- `sort_data`: `sorted(data, key=lambda x: x['fhora'] if 'fhora' in x else
x['utc_datetime'])`.  Python's `sorted` is a stable comparison sort; it is
modelled by stable insertion sort on the same key order. -/
def sort_data (data : List DataRecord) : List DataRecord :=
  List.insertionSort recLe data

/-- Comparison of raw records by `fhora` (the key `sort_data` uses on them). -/
def rawLe (x y : RawRecord) : Prop := x.fhora ≤ y.fhora

instance : DecidableRel rawLe := fun _ _ => inferInstanceAs (Decidable (_ ≤ _))

instance : IsTotal RawRecord rawLe := ⟨fun a b => le_total a.fhora b.fhora⟩

instance : IsTrans RawRecord rawLe := ⟨fun _ _ _ h h' => le_trans h h'⟩

/-- Sorting the freshly fetched raw JSON records inside `aggregate_data`:
every such dict has key `fhora`, so `sort_data`'s key is `fhora`. -/
def sortRaw (data : List RawRecord) : List RawRecord :=
  List.insertionSort rawLe data

/-- Python truthiness of the `time_aggregation` value (`None` or a string):
`None` and the empty string are falsy, every other string is truthy. -/
def pyTruthy : Option String → Bool
  | none => false
  | some s => !s.isEmpty

/-- Line 95 of the source, with Python's `and`/`or` precedence
(`A and B or C and D or E and F` is `(A∧B) ∨ (C∧D) ∨ (E∧F)`):
`aggregate = time_aggregation == "Hourly" and last_time.hour == time.hour or
time_aggregation == "Daily" and last_time.day == time.day or
time_aggregation == "Monthly" and last_time.month == time.month`. -/
def mergePredicate (time_aggregation : Option String) (last_time time : DateTime) : Bool :=
  (time_aggregation == some "Hourly" && last_time.hour == time.hour)
  || (time_aggregation == some "Daily" && last_time.day == time.day)
  || (time_aggregation == some "Monthly" && last_time.month == time.month)

/-- The in-place merge, lines 97-99: `aggregated_item[k] = (aggregated_item[k] +
item[j]) / 2` for the temperature/pressure/speed keys.  `aggregated_item`
aliases the last dict appended to `aggregated_data`. -/
def mergeInto (last : AggRecord) (item : RawRecord) : AggRecord :=
  { last with
    temperature := (last.temperature + item.temp) / 2
    pressure := (last.pressure + item.pres) / 2
    speed := (last.speed + item.vel) / 2 }

/-- The fresh bucket dict built at lines 102-109 from the current record and
its parsed time, with the local `datetime` computed by the timezone
conversion `tz` (modelling `time.replace(tzinfo=pytz.utc).astimezone(self.local_timezone)`). -/
def newBucket (tz : DateTime → DateTime) (item : RawRecord) : AggRecord :=
  { station := item.nombre
    utc_datetime := item.fhora
    datetime := tz item.fhora
    temperature := item.temp
    pressure := item.pres
    speed := item.vel }

/-- One iteration of the loop at lines 90-110 acting on the output built so
far.  The accumulator holds `aggregated_data` in reverse, so its head is
`aggregated_data[-1]`, the dict that `aggregated_item` aliases.  Python:
if `len(aggregated_data) > 0 and time_aggregation` (truthiness) and the
granularity predicate holds against `aggregated_data[-1]["utc_datetime"]`,
mutate that last dict and `continue`; otherwise append a new bucket. -/
def aggregateStep (tz : DateTime → DateTime) (time_aggregation : Option String)
    (acc : List AggRecord) (item : RawRecord) : List AggRecord :=
  match acc with
  | last :: others =>
    if pyTruthy time_aggregation && mergePredicate time_aggregation last.utc_datetime item.fhora then
      mergeInto last item :: others
    else
      newBucket tz item :: last :: others
  | [] => [newBucket tz item]

/-- `aggregate_data(data_url, time_aggregation)` after the fetch of
`data_url` produced the list `data` (lines 82-112): return `[]` for empty
input, else sort by time and fold the merge-or-append step over the sorted
records.  The accumulator is reversed at the end because `aggregateStep`
keeps `aggregated_data` newest-first. -/
def aggregate_core (tz : DateTime → DateTime) (data : List RawRecord)
    (time_aggregation : Option String) : List AggRecord :=
  if data.length = 0 then []
  else (((sortRaw data).foldl (aggregateStep tz time_aggregation) []).reverse)

/-- The metadata JSON returned by the first upstream call:
`estado` (int), `descripcion` (string), and optionally `datos` (a URL string
to the actual dataset; `none` models the key being absent). -/
structure MetaResponse where
  estado : Int
  descripcion : String
  datos : Option String
deriving DecidableEq, Repr

/-- The network oracle: `meta` is `requests.get(base_url + endpoint).json()`,
`fetch` is `json.loads(requests.get(data_url).text)` for the dataset URL. -/
structure Network where
  meta : String → MetaResponse
  fetch : String → List RawRecord

/-- A Python status value: the source mixes numeric statuses (`200`,
`response["estado"]`) with the string literal `"400"`. -/
inductive StatusVal
  | num (n : Int)
  | str (s : String)
deriving DecidableEq, Repr

/-- The dict returned by `get_antarctica_data`.  An `Option` field set to
`none` models the corresponding key being absent from the dict: the
granularity-failure branch (lines 35-42) writes its empty list under the key
`"data"`, every other branch under `"dataset"`. -/
structure Envelope where
  status : StatusVal
  description : String
  dataset : Option (List AggRecord)
  data : Option (List AggRecord)
deriving DecidableEq, Repr

/-- `self.time_aggregation_options = [None, "Hourly", "Daily", "Monthly"]`. -/
def time_aggregation_options : List (Option String) :=
  [none, some "Hourly", some "Daily", some "Monthly"]

/-- `"None" if item is None else item` for one option. -/
def renderOption : Option String → String
  | none => "None"
  | some s => s

/-- `self.stations`: the fixed two-entry station catalog (the second display
name carries a stray closing brace in the source). -/
def stations : List (String × String) :=
  [("89064", "Juan Carlos I Meteorological Station"),
   ("89070", "Gabriel de Castilla Meteorological Station\x7d")]

/-- Python's `repr` of the `self.stations` dict, interpolated by
`"... must be one of: %s" % self.stations`. -/
def renderStations (l : List (String × String)) : String :=
  "\x7b" ++ String.intercalate ", "
    (l.map (fun p => "\x27" ++ p.1 ++ "\x27: \x27" ++ p.2 ++ "\x27")) ++ "\x7d"

/-- The description of the granularity validation failure (lines 33-40). -/
def granularityFailureDescription : String :=
  "Validation failure. Time aggregation not valid must be one of: " ++
    String.intercalate ", " (time_aggregation_options.map renderOption)

/-- The description of the station validation failure (lines 48-49). -/
def stationFailureDescription : String :=
  "Validation failure. Station id must be one of: " ++ renderStations stations

/-- The endpoint string built at line 53. -/
def endpointFor (start_date end_date station_id : String) : String :=
  "/api/antartida/datos/fechaini/" ++ start_date ++ "/fechafin/" ++ end_date ++
    "/estacion/" ++ station_id

/-- The fall-through envelope at lines 64-68: status and description copied
verbatim from the upstream response, dataset empty. -/
def passthroughEnvelope (response : MetaResponse) : Envelope :=
  { status := .num response.estado
    description := response.descripcion
    dataset := some []
    data := none }

/-- `aggregate_data(data_url, time_aggregation)` including its own fetch of
the dataset URL (line 80). -/
def aggregate_data (tz : DateTime → DateTime) (net : Network) (data_url : String)
    (time_aggregation : Option String) : List AggRecord :=
  aggregate_core tz (net.fetch data_url) time_aggregation

/-- `get_antarctica_data(start_date, end_date, station_id, time_aggregation)`
(lines 31-68), paired with the number of network requests the call performs
(0 when validation fails, 1 for the metadata call alone, 2 when
`aggregate_data` also fetches the dataset URL). -/
def get_antarctica_data (tz : DateTime → DateTime) (net : Network)
    (start_date end_date station_id : String) (time_aggregation : Option String) :
    Envelope × Nat :=
  if time_aggregation ∉ time_aggregation_options then
    ({ status := .str "400"
       description := granularityFailureDescription
       dataset := none
       data := some [] }, 0)
  else if station_id ∉ stations.map Prod.fst then
    ({ status := .str "400"
       description := stationFailureDescription
       dataset := some []
       data := none }, 0)
  else
    let response := net.meta (endpointFor start_date end_date station_id)
    if response.estado = 200 then
      match response.datos with
      | some url =>
          ({ status := .num 200
             description := "OK"
             dataset := some (aggregate_data tz net url time_aggregation)
             data := none }, 2)
      | none => (passthroughEnvelope response, 1)
    else (passthroughEnvelope response, 1)

/-! ### Concrete test fixtures used by the closed witness theorems -/

/-- A concrete timezone conversion (the identity, standing for UTC→UTC). -/
def idTz : DateTime → DateTime := id

/-- Shorthand for fixture timestamps in 2022. -/
def mkDT (mo d h : Nat) : DateTime := ⟨2022, mo, d, h, 0, 0⟩

/-- Fixture raw observations.  `rawA`, `rawB`, `rawC` are on different days
(`rawC` even in a different month) but all at hour 14, with temperatures
10, 20, 30. -/
def rawA : RawRecord := ⟨"Juan Carlos I Meteorological Station", mkDT 7 1 14, 10, 1000, 5⟩

/-- Second fixture observation (same hour-of-day as `rawA`, next day). -/
def rawB : RawRecord := ⟨"Juan Carlos I Meteorological Station", mkDT 7 2 14, 20, 1010, 6⟩

/-- Third fixture observation (same hour-of-day, a month later). -/
def rawC : RawRecord := ⟨"Juan Carlos I Meteorological Station", mkDT 8 3 14, 30, 1020, 7⟩

/-- A network whose metadata call fails with a 404 and whose dataset fetches
return nothing. -/
def net404 : Network :=
  { meta := fun _ => { estado := 404, descripcion := "datos no encontrados", datos := none }
    fetch := fun _ => [] }

/-- A network whose metadata call succeeds with estado 200 but omits the
`datos` key. -/
def net200NoDatos : Network :=
  { meta := fun _ => { estado := 200, descripcion := "exito", datos := none }
    fetch := fun _ => [] }

/-- A network that serves the three fixture observations. -/
def netThree : Network :=
  { meta := fun _ => { estado := 200, descripcion := "exito", datos := some "datos-url" }
    fetch := fun _ => [rawA, rawB, rawC] }

/-! ### Theorems -/

/-- On a list of raw dicts, `sort_data` is exactly `sortRaw`. -/
theorem sort_data_map_raw (data : List RawRecord) :
    sort_data (data.map .raw) = (sortRaw data).map .raw := by
  induction data with
  | nil => rfl
  | cons a l ih =>
    simp only [List.map, sort_data, sortRaw, List.insertionSort] at *
    rw [ih]
    generalize List.insertionSort rawLe l = m
    induction m with
    | nil => rfl
    | cons b t iht =>
      simp only [List.map, List.orderedInsert]
      by_cases h : recLe (.raw a) (.raw b)
      · rw [if_pos h, if_pos (show rawLe a b from h)]
        rfl
      · rw [if_neg h, if_neg (show ¬ rawLe a b from h), iht]
        rfl

/-- Merging never touches the bucket's `utc_datetime`. -/
theorem mergeInto_utc_datetime (last : AggRecord) (item : RawRecord) :
    (mergeInto last item).utc_datetime = last.utc_datetime := rfl

/-- A fresh bucket's `utc_datetime` is the record's parsed time. -/
theorem newBucket_utc_datetime (tz : DateTime → DateTime) (item : RawRecord) :
    (newBucket tz item).utc_datetime = item.fhora := rfl

/-- Unfolding `aggregateStep` on a non-empty accumulator. -/
theorem aggregateStep_cons (tz : DateTime → DateTime) (ta : Option String)
    (last : AggRecord) (others : List AggRecord) (item : RawRecord) :
    aggregateStep tz ta (last :: others) item =
      if pyTruthy ta && mergePredicate ta last.utc_datetime item.fhora then
        mergeInto last item :: others
      else newBucket tz item :: last :: others := rfl

/-- With `time_aggregation = None` every record opens its own bucket: the
fold just maps `newBucket` over the input (accumulated newest-first). -/
theorem foldl_aggregateStep_none (tz : DateTime → DateTime) (l : List RawRecord) :
    ∀ acc : List AggRecord,
      l.foldl (aggregateStep tz none) acc = (l.map (newBucket tz)).reverse ++ acc := by
  induction l with
  | nil => intro acc; simp
  | cons item rest ih =>
    intro acc
    have hstep : aggregateStep tz none acc item = newBucket tz item :: acc := by
      cases acc with
      | nil => rfl
      | cons last others => rw [aggregateStep_cons]; simp [pyTruthy]
    rw [List.foldl_cons, hstep, ih]
    simp

/-- The fold invariant behind chronological order: if the accumulator is
newest-first, every accumulated bucket's `utc_datetime` is at most every
remaining record's time, and the remaining records are sorted, then the
final accumulator is still newest-first. -/
theorem foldl_aggregateStep_pairwise (tz : DateTime → DateTime) (ta : Option String)
    (l : List RawRecord) :
    ∀ acc : List AggRecord,
      List.Pairwise rawLe l →
      List.Pairwise (fun a b : AggRecord => b.utc_datetime ≤ a.utc_datetime) acc →
      (∀ a ∈ acc, ∀ r ∈ l, a.utc_datetime ≤ r.fhora) →
      List.Pairwise (fun a b : AggRecord => b.utc_datetime ≤ a.utc_datetime)
        (l.foldl (aggregateStep tz ta) acc) := by
  induction l with
  | nil => intro acc _ hacc _; simpa using hacc
  | cons item rest ih =>
    intro acc hl hacc hbound
    rw [List.pairwise_cons] at hl
    rw [List.foldl_cons]
    refine ih _ hl.2 ?_ ?_
    · -- the accumulator stays newest-first after one step
      cases acc with
      | nil => simp [aggregateStep]
      | cons last others =>
        rw [List.pairwise_cons] at hacc
        rw [aggregateStep_cons]
        by_cases hc : (pyTruthy ta && mergePredicate ta last.utc_datetime item.fhora) = true
        · rw [if_pos hc, List.pairwise_cons]
          exact ⟨fun o ho => by rw [mergeInto_utc_datetime]; exact hacc.1 o ho, hacc.2⟩
        · rw [if_neg hc, List.pairwise_cons]
          refine ⟨?_, List.pairwise_cons.mpr hacc⟩
          intro b hb
          rw [newBucket_utc_datetime]
          exact hbound b hb item (List.mem_cons_self item rest)
    · -- every accumulated bucket stays below every remaining record
      intro a ha r hr
      cases acc with
      | nil =>
        simp only [aggregateStep, List.mem_singleton] at ha
        rw [ha, newBucket_utc_datetime]
        exact hl.1 r hr
      | cons last others =>
        rw [aggregateStep_cons] at ha
        by_cases hc : (pyTruthy ta && mergePredicate ta last.utc_datetime item.fhora) = true
        · rw [if_pos hc] at ha
          rcases List.mem_cons.mp ha with h | h
          · rw [h, mergeInto_utc_datetime]
            exact hbound last (List.mem_cons_self _ _) r (List.mem_cons_of_mem _ hr)
          · exact hbound a (List.mem_cons_of_mem _ h) r (List.mem_cons_of_mem _ hr)
        · rw [if_neg hc] at ha
          rcases List.mem_cons.mp ha with h | h
          · rw [h, newBucket_utc_datetime]
            exact hl.1 r hr
          · exact hbound a h r (List.mem_cons_of_mem _ hr)

/-- C3: For every input dataset and every granularity, the sequence returned
by `aggregate_data` is chronologically non-decreasing by its `utc_datetime`
field: each new bucket's UTC timestamp is taken from a later-or-equal record
of the sorted input and merging never changes a bucket's UTC timestamp. -/
theorem aggregate_data_chronological (tz : DateTime → DateTime) (net : Network)
    (data_url : String) (ta : Option String) :
    List.Sorted (fun a b : AggRecord => a.utc_datetime ≤ b.utc_datetime)
      (aggregate_data tz net data_url ta) := by
  unfold aggregate_data aggregate_core
  by_cases h : (net.fetch data_url).length = 0
  · rw [if_pos h]
    exact List.sorted_nil
  · rw [if_neg h]
    unfold List.Sorted
    rw [List.pairwise_reverse]
    exact foldl_aggregateStep_pairwise tz ta _ []
      (List.sorted_insertionSort rawLe _) List.Pairwise.nil
      (by intro a ha; cases ha)

/-- C4: Aggregating with granularity `None` is an identity transform apart
from restructuring: the output has the same length as the input, and
position by position the output record carries the input record's station
name, parsed timestamp, timezone-converted timestamp, and unchanged
temperature, pressure and speed — no merging occurs. -/
theorem aggregate_data_none_identity (tz : DateTime → DateTime) (net : Network)
    (data_url : String) :
    (aggregate_data tz net data_url none).length = (net.fetch data_url).length ∧
    aggregate_data tz net data_url none =
      (sortRaw (net.fetch data_url)).map (fun item =>
        { station := item.nombre
          utc_datetime := item.fhora
          datetime := tz item.fhora
          temperature := item.temp
          pressure := item.pres
          speed := item.vel }) := by
  have hmain : aggregate_data tz net data_url none =
      (sortRaw (net.fetch data_url)).map (newBucket tz) := by
    unfold aggregate_data aggregate_core
    by_cases h : (net.fetch data_url).length = 0
    · rw [if_pos h, List.length_eq_zero.mp h]
      rfl
    · rw [if_neg h, foldl_aggregateStep_none]
      simp
  refine ⟨?_, hmain⟩
  rw [hmain, List.length_map]
  exact (List.perm_insertionSort rawLe _).length_eq

/-- C5: On every non-empty input, `sort_data` returns a sequence that is
non-decreasing under the effective sort key (`fhora` when present, else
`utc_datetime`) and is a permutation of the input. -/
theorem sort_data_sorted_and_perm (data : List DataRecord) (h : data ≠ []) :
    List.Sorted recLe (sort_data data) ∧ (sort_data data).Perm data :=
  ⟨List.sorted_insertionSort recLe data, List.perm_insertionSort recLe data⟩

/-- Witness for C5 at a concrete two-element input. -/
theorem sort_data_sorted_and_perm_witness :
    ([DataRecord.raw rawB, DataRecord.raw rawA] ≠ []) ∧
    (List.Sorted recLe (sort_data [DataRecord.raw rawB, DataRecord.raw rawA]) ∧
      (sort_data [DataRecord.raw rawB, DataRecord.raw rawA]).Perm
        [DataRecord.raw rawB, DataRecord.raw rawA]) :=
  ⟨by decide, sort_data_sorted_and_perm _ (by decide)⟩

/-- Taking the merge branch is equivalent to the source's boolean condition:
the branch's result is distinguishable from the new-bucket branch by length. -/
theorem aggregateStep_merge_iff (tz : DateTime → DateTime) (ta : Option String)
    (last : AggRecord) (others : List AggRecord) (item : RawRecord) :
    (aggregateStep tz ta (last :: others) item = mergeInto last item :: others)
      ↔ (pyTruthy ta && mergePredicate ta last.utc_datetime item.fhora) = true := by
  rw [aggregateStep_cons]
  by_cases hc : (pyTruthy ta && mergePredicate ta last.utc_datetime item.fhora) = true
  · rw [if_pos hc]
    simp [hc]
  · rw [if_neg hc]
    constructor
    · intro hEq
      have hlen := congrArg List.length hEq
      simp at hlen
    · intro h
      exact absurd h hc

/-- C1: With a non-empty output and granularity `Hourly`/`Daily`/`Monthly`,
the current record merges into the last appended bucket if and only if the
granularity's single calendar component of the last bucket's UTC timestamp
equals that component of the record's parsed timestamp (hour-of-day,
day-of-month, month-of-year respectively), ignoring all enclosing
components.  The accumulator is newest-first, so `last` is the last
appended entry `aggregated_data[-1]`. -/
theorem merge_iff_single_component (tz : DateTime → DateTime)
    (last : AggRecord) (others : List AggRecord) (item : RawRecord) :
    ((aggregateStep tz (some "Hourly") (last :: others) item = mergeInto last item :: others)
      ↔ last.utc_datetime.hour = item.fhora.hour) ∧
    ((aggregateStep tz (some "Daily") (last :: others) item = mergeInto last item :: others)
      ↔ last.utc_datetime.day = item.fhora.day) ∧
    ((aggregateStep tz (some "Monthly") (last :: others) item = mergeInto last item :: others)
      ↔ last.utc_datetime.month = item.fhora.month) := by
  have e1 : ("Hourly" : String).isEmpty = false := by decide
  have e2 : ("Daily" : String).isEmpty = false := by decide
  have e3 : ("Monthly" : String).isEmpty = false := by decide
  refine ⟨?_, ?_, ?_⟩ <;>
    rw [aggregateStep_merge_iff] <;>
    simp [mergePredicate, pyTruthy, e1, e2, e3]

/-- C2: When three sequential records all collide with the opening record
under the active granularity predicate, they aggregate to one bucket whose
measurements are the pairwise running averages
`((v1 + v2) / 2 + v3) / 2` — not the cumulative mean. -/
theorem merge_three_pairwise_average (tz : DateTime → DateTime) (net : Network)
    (data_url : String) (ta : Option String) (r1 r2 r3 : RawRecord)
    (hfetch : net.fetch data_url = [r1, r2, r3])
    (hsorted : List.Sorted rawLe [r1, r2, r3])
    (htruthy : pyTruthy ta = true)
    (h2 : mergePredicate ta r1.fhora r2.fhora = true)
    (h3 : mergePredicate ta r1.fhora r3.fhora = true) :
    aggregate_data tz net data_url ta =
      [{ station := r1.nombre
         utc_datetime := r1.fhora
         datetime := tz r1.fhora
         temperature := ((r1.temp + r2.temp) / 2 + r3.temp) / 2
         pressure := ((r1.pres + r2.pres) / 2 + r3.pres) / 2
         speed := ((r1.vel + r2.vel) / 2 + r3.vel) / 2 }] := by
  unfold aggregate_data aggregate_core
  rw [hfetch, if_neg (by simp)]
  have hs : sortRaw [r1, r2, r3] = [r1, r2, r3] := hsorted.insertionSort_eq
  rw [hs]
  simp only [List.foldl_cons, List.foldl_nil]
  have s1 : aggregateStep tz ta [] r1 = [newBucket tz r1] := rfl
  rw [s1]
  have c2 : (pyTruthy ta &&
      mergePredicate ta (newBucket tz r1).utc_datetime r2.fhora) = true := by
    rw [newBucket_utc_datetime, htruthy, h2]
    rfl
  rw [aggregateStep_cons, if_pos c2]
  have c3 : (pyTruthy ta &&
      mergePredicate ta (mergeInto (newBucket tz r1) r2).utc_datetime r3.fhora) = true := by
    rw [mergeInto_utc_datetime, newBucket_utc_datetime, htruthy, h3]
    rfl
  rw [aggregateStep_cons, if_pos c3]
  rfl

/-- Witness for C2: temperatures 10, 20, 30 at the same hour-of-day yield a
single bucket with temperature `45/2 = 22.5`, not 20. -/
theorem merge_three_pairwise_average_witness :
    netThree.fetch "datos-url" = [rawA, rawB, rawC] ∧
    List.Sorted rawLe [rawA, rawB, rawC] ∧
    pyTruthy (some "Hourly") = true ∧
    mergePredicate (some "Hourly") rawA.fhora rawB.fhora = true ∧
    mergePredicate (some "Hourly") rawA.fhora rawC.fhora = true ∧
    aggregate_data idTz netThree "datos-url" (some "Hourly") =
      [{ station := "Juan Carlos I Meteorological Station"
         utc_datetime := mkDT 7 1 14
         datetime := mkDT 7 1 14
         temperature := 45 / 2
         pressure := 2025 / 2
         speed := 25 / 4 }] := by
  refine ⟨rfl, by decide, rfl, by decide, by decide, ?_⟩
  have h := merge_three_pairwise_average idTz netThree "datos-url" (some "Hourly")
    rawA rawB rawC rfl (by decide) rfl (by decide) (by decide)
  refine h.trans ?_
  norm_num [rawA, rawB, rawC, idTz, mkDT]

/-- C9: Merging a record into an existing bucket replaces only the
temperature, pressure and speed of the last bucket; its station name, UTC
timestamp and local timestamp are unchanged and every other bucket is
untouched.  The final conjunct records that a bucket's UTC timestamp is the
parsed time of the observation that opened it, and its local timestamp that
time's timezone conversion — both therefore stay fixed across merges. -/
theorem merge_frame_effect (tz : DateTime → DateTime) (ta : Option String)
    (last : AggRecord) (others : List AggRecord) (item : RawRecord)
    (h : (pyTruthy ta && mergePredicate ta last.utc_datetime item.fhora) = true) :
    aggregateStep tz ta (last :: others) item =
      { last with
        temperature := (last.temperature + item.temp) / 2
        pressure := (last.pressure + item.pres) / 2
        speed := (last.speed + item.vel) / 2 } :: others ∧
    (mergeInto last item).station = last.station ∧
    (mergeInto last item).utc_datetime = last.utc_datetime ∧
    (mergeInto last item).datetime = last.datetime ∧
    (∀ it : RawRecord, (newBucket tz it).utc_datetime = it.fhora ∧
      (newBucket tz it).datetime = tz it.fhora) := by
  refine ⟨?_, rfl, rfl, rfl, fun it => ⟨rfl, rfl⟩⟩
  rw [aggregateStep_cons, if_pos h]
  rfl

/-- Witness for C9 at a concrete merge of `rawB` into the bucket opened by
`rawA`. -/
theorem merge_frame_effect_witness :
    (pyTruthy (some "Hourly") &&
      mergePredicate (some "Hourly") (newBucket idTz rawA).utc_datetime rawB.fhora) = true ∧
    aggregateStep idTz (some "Hourly") [newBucket idTz rawA] rawB =
      [{ newBucket idTz rawA with
         temperature := ((newBucket idTz rawA).temperature + rawB.temp) / 2
         pressure := ((newBucket idTz rawA).pressure + rawB.pres) / 2
         speed := ((newBucket idTz rawA).speed + rawB.vel) / 2 }] :=
  ⟨by decide,
    (merge_frame_effect idTz (some "Hourly") (newBucket idTz rawA) [] rawB (by decide)).1⟩

/-- C6 counterexample: the granularity validation failure's envelope carries
its status as the string "400" — not a numeric status code — and has no
`dataset` key at all: its empty list sits under a key named `data`. -/
theorem envelope_uniformity_counterexample :
    (get_antarctica_data idTz net404 "a" "b" "89064" (some "Weekly")).1.status =
      StatusVal.str "400" ∧
    (get_antarctica_data idTz net404 "a" "b" "89064" (some "Weekly")).1.dataset = none ∧
    (get_antarctica_data idTz net404 "a" "b" "89064" (some "Weekly")).1.data = some [] := by
  refine ⟨?_, ?_, ?_⟩ <;> rfl

/-- The three failure branches of `get_antarctica_data`, fully evaluated:
granularity failure, station failure, upstream fall-through. -/
theorem get_antarctica_data_branch_shapes (tz : DateTime → DateTime) (net : Network)
    (sd ed sid : String) (ta : Option String) :
    (ta ∉ time_aggregation_options →
      get_antarctica_data tz net sd ed sid ta =
        ({ status := .str "400"
           description := granularityFailureDescription
           dataset := none
           data := some [] }, 0)) ∧
    (ta ∈ time_aggregation_options → sid ∉ stations.map Prod.fst →
      get_antarctica_data tz net sd ed sid ta =
        ({ status := .str "400"
           description := stationFailureDescription
           dataset := some []
           data := none }, 0)) ∧
    (ta ∈ time_aggregation_options → sid ∈ stations.map Prod.fst →
      ¬((net.meta (endpointFor sd ed sid)).estado = 200 ∧
          ((net.meta (endpointFor sd ed sid)).datos).isSome = true) →
      get_antarctica_data tz net sd ed sid ta =
        ({ status := .num (net.meta (endpointFor sd ed sid)).estado
           description := (net.meta (endpointFor sd ed sid)).descripcion
           dataset := some []
           data := none }, 1)) := by
  refine ⟨?_, ?_, ?_⟩
  · intro h
    simp [get_antarctica_data, h]
  · intro hta hsid
    simp [get_antarctica_data, hta, hsid]
  · intro hta hsid hfail
    by_cases h200 : (net.meta (endpointFor sd ed sid)).estado = 200
    · cases hd : (net.meta (endpointFor sd ed sid)).datos with
      | none =>
        simp [get_antarctica_data, hta, hsid, h200, hd, passthroughEnvelope]
      | some url =>
        exact absurd ⟨h200, by rw [hd]; rfl⟩ hfail
    · simp [get_antarctica_data, hta, hsid, h200, passthroughEnvelope]

/-- C6 (amended): every failure outcome of `get_antarctica_data` is one
envelope holding a status code, a description string and an empty record
list, but not in the uniform shape the claim states: validation failures
carry the status as the string "400" rather than a number, and the
granularity failure stores its empty list under a key named `data` with no
`dataset` key; the station failure and upstream failures store the empty
list under `dataset`, upstream failures passing the numeric `estado` and
`descripcion` through. -/
theorem envelope_failure_shapes (tz : DateTime → DateTime) (net : Network)
    (sd ed sid : String) (ta : Option String) :
    (ta ∉ time_aggregation_options →
      get_antarctica_data tz net sd ed sid ta =
        ({ status := .str "400"
           description := granularityFailureDescription
           dataset := none
           data := some [] }, 0)) ∧
    (ta ∈ time_aggregation_options → sid ∉ stations.map Prod.fst →
      get_antarctica_data tz net sd ed sid ta =
        ({ status := .str "400"
           description := stationFailureDescription
           dataset := some []
           data := none }, 0)) ∧
    (ta ∈ time_aggregation_options → sid ∈ stations.map Prod.fst →
      ¬((net.meta (endpointFor sd ed sid)).estado = 200 ∧
          ((net.meta (endpointFor sd ed sid)).datos).isSome = true) →
      get_antarctica_data tz net sd ed sid ta =
        ({ status := .num (net.meta (endpointFor sd ed sid)).estado
           description := (net.meta (endpointFor sd ed sid)).descripcion
           dataset := some []
           data := none }, 1)) :=
  get_antarctica_data_branch_shapes tz net sd ed sid ta

/-- Witness for C6 (amended) at the invalid granularity "Weekly". -/
theorem envelope_failure_shapes_witness :
    (some "Weekly") ∉ time_aggregation_options ∧
    get_antarctica_data idTz net404 "a" "b" "89064" (some "Weekly") =
      ({ status := .str "400"
         description := granularityFailureDescription
         dataset := none
         data := some [] }, 0) :=
  ⟨by decide,
    (envelope_failure_shapes idTz net404 "a" "b" "89064" (some "Weekly")).1 (by decide)⟩

/-- C7: An invalid granularity argument or an unknown station id makes
`get_antarctica_data` return a "400" validation failure after zero network
requests, with a result that does not depend on the network at all; the
granularity failure's description enumerates exactly None, Hourly, Daily,
Monthly (the no-aggregation option rendered as the word "None"), and the
station failure's description carries the full two-entry catalog. -/
theorem validation_failures_no_network (tz : DateTime → DateTime) (net : Network)
    (sd ed sid : String) (ta : Option String)
    (h : ta ∉ time_aggregation_options ∨ sid ∉ stations.map Prod.fst) :
    (get_antarctica_data tz net sd ed sid ta).2 = 0 ∧
    (∀ net' : Network, get_antarctica_data tz net' sd ed sid ta =
      get_antarctica_data tz net sd ed sid ta) ∧
    (get_antarctica_data tz net sd ed sid ta).1.status = StatusVal.str "400" ∧
    (ta ∉ time_aggregation_options →
      (get_antarctica_data tz net sd ed sid ta).1.description =
        "Validation failure. Time aggregation not valid must be one of: None, Hourly, Daily, Monthly") ∧
    (ta ∈ time_aggregation_options →
      (get_antarctica_data tz net sd ed sid ta).1.description =
        "Validation failure. Station id must be one of: \x7b\x2789064\x27: \x27Juan Carlos I Meteorological Station\x27, \x2789070\x27: \x27Gabriel de Castilla Meteorological Station\x7d\x27\x7d") := by
  by_cases hta : ta ∈ time_aggregation_options
  · have hsid : sid ∉ stations.map Prod.fst := h.resolve_left (not_not_intro hta)
    have he := ((get_antarctica_data_branch_shapes tz net sd ed sid ta).2.1) hta hsid
    refine ⟨by rw [he], fun net' => ?_, by rw [he], fun hcon => absurd hta hcon, fun _ => ?_⟩
    · rw [he, ((get_antarctica_data_branch_shapes tz net' sd ed sid ta).2.1) hta hsid]
    · rw [he]
      decide
  · have he := ((get_antarctica_data_branch_shapes tz net sd ed sid ta).1) hta
    refine ⟨by rw [he], fun net' => ?_, by rw [he], fun _ => ?_, fun hcon => absurd hcon hta⟩
    · rw [he, ((get_antarctica_data_branch_shapes tz net' sd ed sid ta).1) hta]
    · rw [he]
      decide

/-- Witness for C7 at the invalid granularity "Weekly" (with a valid
station id). -/
theorem validation_failures_no_network_witness :
    ((some "Weekly") ∉ time_aggregation_options ∨
      "89064" ∉ (stations.map Prod.fst : List String)) ∧
    (get_antarctica_data idTz net404 "a" "b" "89064" (some "Weekly")).2 = 0 ∧
    (get_antarctica_data idTz net404 "a" "b" "89064" (some "Weekly")).1.status =
      StatusVal.str "400" :=
  ⟨Or.inl (by decide),
    (validation_failures_no_network idTz net404 "a" "b" "89064" (some "Weekly")
      (Or.inl (by decide))).1,
    (validation_failures_no_network idTz net404 "a" "b" "89064" (some "Weekly")
      (Or.inl (by decide))).2.2.1⟩

/-- C8: When the upstream metadata response carries a non-200 `estado`,
`get_antarctica_data` passes the remote `estado` and `descripcion` through
verbatim with an empty dataset. -/
theorem upstream_error_passthrough (tz : DateTime → DateTime) (net : Network)
    (sd ed sid : String) (ta : Option String)
    (hta : ta ∈ time_aggregation_options)
    (hsid : sid ∈ stations.map Prod.fst)
    (hest : (net.meta (endpointFor sd ed sid)).estado ≠ 200) :
    (get_antarctica_data tz net sd ed sid ta).1 =
      { status := .num (net.meta (endpointFor sd ed sid)).estado
        description := (net.meta (endpointFor sd ed sid)).descripcion
        dataset := some []
        data := none } := by
  have he := ((get_antarctica_data_branch_shapes tz net sd ed sid ta).2.2) hta hsid
    (fun hc => hest hc.1)
  rw [he]

/-- Witness for C8 on a network answering estado 404. -/
theorem upstream_error_passthrough_witness :
    (none : Option String) ∈ time_aggregation_options ∧
    "89064" ∈ (stations.map Prod.fst : List String) ∧
    (net404.meta (endpointFor "a" "b" "89064")).estado ≠ 200 ∧
    (get_antarctica_data idTz net404 "a" "b" "89064" none).1 =
      { status := .num 404
        description := "datos no encontrados"
        dataset := some []
        data := none } :=
  ⟨by decide, by decide, by decide,
    upstream_error_passthrough idTz net404 "a" "b" "89064" none
      (by decide) (by decide) (by decide)⟩

/-- C10: When the upstream response has `estado = 200` but no `datos` key,
`get_antarctica_data` does not fail: it returns status 200 (the response's
`estado`), the response's `descripcion`, and an empty dataset, after the
single metadata request — no aggregation (and no second fetch) runs. -/
theorem estado200_without_datos (tz : DateTime → DateTime) (net : Network)
    (sd ed sid : String) (ta : Option String)
    (hta : ta ∈ time_aggregation_options)
    (hsid : sid ∈ stations.map Prod.fst)
    (hest : (net.meta (endpointFor sd ed sid)).estado = 200)
    (hdatos : (net.meta (endpointFor sd ed sid)).datos = none) :
    get_antarctica_data tz net sd ed sid ta =
      ({ status := .num 200
         description := (net.meta (endpointFor sd ed sid)).descripcion
         dataset := some []
         data := none }, 1) := by
  have he := ((get_antarctica_data_branch_shapes tz net sd ed sid ta).2.2) hta hsid
    (fun hc => by rw [hdatos] at hc; exact Bool.false_ne_true hc.2)
  rw [he, hest]

/-- Witness for C10 on a network answering estado 200 without `datos`. -/
theorem estado200_without_datos_witness :
    (none : Option String) ∈ time_aggregation_options ∧
    "89064" ∈ (stations.map Prod.fst : List String) ∧
    (net200NoDatos.meta (endpointFor "a" "b" "89064")).estado = 200 ∧
    (net200NoDatos.meta (endpointFor "a" "b" "89064")).datos = none ∧
    get_antarctica_data idTz net200NoDatos "a" "b" "89064" none =
      ({ status := .num 200
         description := "exito"
         dataset := some []
         data := none }, 1) :=
  ⟨by decide, by decide, by decide, by decide,
    estado200_without_datos idTz net200NoDatos "a" "b" "89064" none
      (by decide) (by decide) (by decide) (by decide)⟩
